import Mathlib

/-
Shallow embedding of the rag-irepair service:
  src/src/ifixit_chatbot.py  (IFixitAPIClient, IFixitRAGChatbot)
  src/src/api_server.py      (FastAPI endpoints /initialize, /query, /reset, /health)
Network responses, the external index/embedding library and the generation model
are modelled as an explicit environment (NetEnv); everything the Python code
computes itself is translated literally.
-/

namespace RagIRepair

/-- A tool entry inside a guide record: the two optional keys the formatter reads
(tool.get for text and name). -/
structure Tool where
  text : Option String
  name : Option String
  deriving DecidableEq

/-- One line of a repair step: the optional text key (line.get with default empty). -/
structure StepLine where
  text : Option String
  deriving DecidableEq

/-- One repair step: optional title and optional list of lines
(step.get for title with default Untitled, step.get for lines with default empty list). -/
structure Step where
  title : Option String
  lines : Option (List StepLine)
  deriving DecidableEq

/-- A guide record as read by format_guide_to_document: every key may be absent,
mirroring a Python dict with optional keys. -/
structure Guide where
  title : Option String
  device : Option String
  difficulty : Option String
  introduction : Option String
  tools : Option (List Tool)
  steps : Option (List Step)
  deriving DecidableEq

/-- Python: tool.get of text, or else tool.get of name with default Unknown.
An empty text string is falsy in Python, so it falls through to the name. -/
def toolName (t : Tool) : String :=
  match t.text with
  | some s => if s = "" then t.name.getD "Unknown" else s
  | none => t.name.getD "Unknown"

/-- One iteration of the steps loop in format_guide_to_document, with idx
counting from 1 (Python enumerate with start 1). -/
def formatStep (idx : Nat) (step : Step) : String :=
  "\nStep " ++ toString idx ++ ": " ++ step.title.getD "Untitled" ++ "\n" ++
    String.join ((step.lines.getD []).map (fun l => "  " ++ l.text.getD "" ++ "\n"))

/-- IFixitRAGChatbot.format_guide_to_document, line by line.
Missing title, device, difficulty become N/A; the introduction block is emitted
whenever the key is present; the tools block only when the key is present and the
list non-empty (Python truthiness); the steps block whenever the key is present. -/
def format_guide_to_document (guide : Guide) : String :=
  let d1 := "Title: " ++ guide.title.getD "N/A" ++ "\n"
  let d2 := d1 ++ "Device: " ++ guide.device.getD "N/A" ++ "\n"
  let d3 := d2 ++ "Difficulty: " ++ guide.difficulty.getD "N/A" ++ "\n\n"
  let d4 := match guide.introduction with
    | some intro => d3 ++ "Introduction:\n" ++ intro ++ "\n\n"
    | none => d3
  let d5 := match guide.tools with
    | some tools =>
      if tools = [] then d4
      else d4 ++ "Tools Required:\n" ++
        String.join (tools.map (fun t => "- " ++ toolName t ++ "\n")) ++ "\n"
    | none => d4
  let d6 := match guide.steps with
    | some steps => d5 ++ "Repair Steps:\n" ++
        String.join (steps.enum.map (fun p => formatStep (p.1 + 1) p.2))
    | none => d5
  d6

/-- Outcome of one HTTP call made by the fetch client. failure collapses every
failure mode the Python try/except catches: network error, non-2xx status
(raise_for_status) and a malformed body (json decoding raises). success carries
the decoded body. -/
inductive FetchResult (α : Type) where
  | failure : FetchResult α
  | success (body : α) : FetchResult α
  deriving DecidableEq

/-- One entry of the search response: the optional guideid key the builder reads. -/
structure SearchResult where
  guideid : Option Nat
  deriving DecidableEq

/-- IFixitAPIClient.search_devices: on any failure return the empty list; on
success return the results key of the body, defaulting to the empty list when the
key is absent. -/
def search_devices (resp : FetchResult (Option (List SearchResult))) : List SearchResult :=
  match resp with
  | .failure => []
  | .success body => body.getD []

/-- IFixitAPIClient.get_guide_details: on any failure return the empty record
(none stands for the empty Python dict, which is falsy); on success return the
decoded body. -/
def get_guide_details (resp : FetchResult (Option Guide)) : Option Guide :=
  match resp with
  | .failure => none
  | .success body => body

/-- The external world for one request: the search response, the guide-detail
response per guide id, whether VectorStoreIndex.from_documents raises (and with
which message), and the answer the query engine produces per question. -/
structure NetEnv where
  searchResp : FetchResult (Option (List SearchResult))
  guideResp : Nat → FetchResult (Option Guide)
  indexFail : Option String
  engineAnswer : String → String

/-- The in-memory index, abstracted to the documents it was built over. -/
structure VectorStoreIndex where
  docs : List String
  deriving DecidableEq

/-- The query engine obtained from index.as_query_engine, abstracted likewise. -/
structure QueryEngine where
  docs : List String
  deriving DecidableEq

/-- IFixitRAGChatbot instance state: the model name passed to the constructor and
the index / query_engine attributes, both None right after construction. -/
structure Chatbot where
  model_name : String
  index : Option VectorStoreIndex
  query_engine : Option QueryEngine
  deriving DecidableEq

/-- IFixitRAGChatbot constructor: records the model name, index and query_engine
start as None. -/
def newChatbot (model_name : String) : Chatbot :=
  ⟨model_name, none, none⟩

/-- The documents list the build loop accumulates: first max_guides search
results; skip a result whose guideid is absent or falsy (zero); fetch the guide;
skip when the fetch returned the empty record; otherwise format it. -/
def docsFromResults (env : NetEnv) (results : List SearchResult) (max_guides : Nat) :
    List String :=
  (results.take max_guides).filterMap (fun r =>
    match r.guideid with
    | some gid =>
      if gid = 0 then none
      else
        match get_guide_details (env.guideResp gid) with
        | some guide => some (format_guide_to_document guide)
        | none => none
    | none => none)

/-- IFixitRAGChatbot.build_knowledge_base. Empty search results: print and return
early, leaving index and query_engine untouched. Otherwise build the documents
list, fall back to the single placeholder document when it is empty, then build
the index and the engine; if the library raises there, the exception propagates
and the chatbot keeps its prior attributes. -/
def build_knowledge_base (env : NetEnv) (cb : Chatbot) (device_query : String)
    (max_guides : Nat) : Except String Chatbot :=
  let search_results := search_devices env.searchResp
  if search_results = [] then
    Except.ok cb
  else
    let documents := docsFromResults env search_results max_guides
    let documents := if documents = [] then ["No guides found."] else documents
    match env.indexFail with
    | some e => Except.error e
    | none => Except.ok { cb with
        index := some ⟨documents⟩,
        query_engine := some ⟨documents⟩ }

/-- IFixitRAGChatbot.query: when query_engine is still None return the literal
warning string; otherwise ask the engine. -/
def Chatbot.query (env : NetEnv) (cb : Chatbot) (question : String) : String :=
  match cb.query_engine with
  | none => "⚠️  Build knowledge base first"
  | some _ => env.engineAnswer question

/-- The two module-level globals of api_server.py that the endpoints touch:
chatbot (None until the first initialize) and the chatbot_initialized flag. -/
structure ServerState where
  chatbot : Option Chatbot
  chatbot_initialized : Bool
  deriving DecidableEq

/-- The state at process start: chatbot is None, the flag is False. -/
def initState : ServerState :=
  ⟨none, false⟩

/-- Outcome of one endpoint call: a 200 body, or an HTTPException with a status
code and a detail string. -/
inductive ApiResult (α : Type) where
  | ok (body : α) : ApiResult α
  | httpError (status : Nat) (detail : String) : ApiResult α
  deriving DecidableEq

/-- Request body of POST /initialize (defaults: max_guides 5, model_name llama2). -/
structure InitializeRequest where
  device_name : String
  max_guides : Nat
  model_name : String
  deriving DecidableEq

/-- Request body of POST /query. -/
structure QueryRequest where
  question : String
  session_id : Option String
  deriving DecidableEq

/-- Response body of POST /initialize on success. -/
structure InitializeResponse where
  status : String
  message : String
  device : String
  deriving DecidableEq

/-- Response body of POST /query on success; timestamp is the serialised clock
value, passed in as an argument here. -/
structure QueryResponse where
  answer : String
  timestamp : String
  deriving DecidableEq

/-- Response body of POST /reset. -/
structure ResetResponse where
  status : String
  deriving DecidableEq

/-- Response body of GET /health. -/
structure HealthResponse where
  status : String
  initialized : Bool
  model : String
  deriving DecidableEq

/-- POST /initialize handler. The chatbot global is reassigned to a fresh
instance before the build runs; on success the flag is set and a success body
returned; if the build raises, the handler returns a 500 whose detail is the
exception message, the fresh instance stays in the global, and the flag keeps
its pre-call value. -/
def initialize_chatbot (env : NetEnv) (s : ServerState) (req : InitializeRequest) :
    ServerState × ApiResult InitializeResponse :=
  let cb0 := newChatbot req.model_name
  match build_knowledge_base env cb0 req.device_name req.max_guides with
  | Except.ok cb =>
    (⟨some cb, true⟩,
      ApiResult.ok ⟨"success", "Initialized for " ++ req.device_name, req.device_name⟩)
  | Except.error e =>
    (⟨some cb0, s.chatbot_initialized⟩, ApiResult.httpError 500 e)

/-- POST /query handler: a 400 when the flag is unset or the chatbot global is
None; otherwise delegate to Chatbot.query and wrap the answer with the current
timestamp. State is never mutated by this handler. -/
def query_chatbot (env : NetEnv) (now : String) (s : ServerState) (req : QueryRequest) :
    ServerState × ApiResult QueryResponse :=
  match s.chatbot, s.chatbot_initialized with
  | some cb, true => (s, ApiResult.ok ⟨Chatbot.query env cb req.question, now⟩)
  | some _, false => (s, ApiResult.httpError 400 "Not initialized")
  | none, _ => (s, ApiResult.httpError 400 "Not initialized")

/-- POST /reset handler: sets chatbot to None, clears the flag, returns success. -/
def reset_chatbot (_s : ServerState) : ServerState × ResetResponse :=
  (⟨none, false⟩, ⟨"success"⟩)

/-- GET /health handler: reads the globals only; the model field is the literal
string llama2 whenever a chatbot object exists, else the literal none. -/
def health_check (s : ServerState) : HealthResponse :=
  ⟨"healthy", s.chatbot_initialized, if s.chatbot.isSome then "llama2" else "none"⟩

/-- One inbound API call together with the environment it runs against. -/
inductive ApiCall where
  | initCall (env : NetEnv) (req : InitializeRequest) : ApiCall
  | queryCall (env : NetEnv) (now : String) (req : QueryRequest) : ApiCall
  | resetCall : ApiCall
  | healthCall : ApiCall

/-- State transition of one API call (GET / and GET /health read only). -/
def stepState (s : ServerState) (c : ApiCall) : ServerState :=
  match c with
  | ApiCall.initCall env req => (initialize_chatbot env s req).1
  | ApiCall.queryCall env now req => (query_chatbot env now s req).1
  | ApiCall.resetCall => (reset_chatbot s).1
  | ApiCall.healthCall => s

/-- Run a sequence of API calls from a state. -/
def runCalls (s : ServerState) : List ApiCall → ServerState
  | [] => s
  | c :: cs => runCalls (stepState s c) cs

/-- A state is reachable when some sequence of API calls leads to it from the
process-start state. -/
def reachable (s : ServerState) : Prop :=
  ∃ cs : List ApiCall, runCalls initState cs = s

/-- States in which no initialize call has produced an index: either no chatbot
object exists, or the one that exists has no query engine. -/
def noBuiltEngine (s : ServerState) : Prop :=
  match s.chatbot with
  | none => True
  | some cb => cb.query_engine = none

/-- Environment whose search succeeds with an empty results list. -/
def envEmptySearch : NetEnv :=
  ⟨FetchResult.success (some []), fun _ => FetchResult.failure, none, fun _ => "an answer"⟩

/-- Environment whose search returns one result but every guide fetch fails. -/
def envNoFetch : NetEnv :=
  ⟨FetchResult.success (some [⟨some 7⟩]), fun _ => FetchResult.failure, none,
    fun _ => "an answer"⟩

/-- Environment where the search succeeds but index construction raises. -/
def envBuildRaises : NetEnv :=
  ⟨FetchResult.success (some [⟨some 7⟩]), fun _ => FetchResult.failure, some "boom",
    fun _ => "an answer"⟩

/-- Claim C2: every POST /query issued while the chatbot global is None and the
flag is false is answered with the 400 error Not initialized, never a 200, and
the state is unchanged. -/
theorem query_before_init_rejected (env : NetEnv) (now : String) (s : ServerState)
    (req : QueryRequest) (b : QueryResponse)
    (h1 : s.chatbot = none) (h2 : s.chatbot_initialized = false) :
    query_chatbot env now s req = (s, ApiResult.httpError 400 "Not initialized") ∧
    (query_chatbot env now s req).2 ≠ ApiResult.ok b := by
  simp [query_chatbot, h1]

/-- Claim C2 witness: at the process-start state, a concrete query is rejected. -/
theorem query_before_init_rejected_witness :
    query_chatbot envEmptySearch "2026-01-01T00:00:00" initState ⟨"What tools?", none⟩
      = (initState, ApiResult.httpError 400 "Not initialized") ∧
    (query_chatbot envEmptySearch "2026-01-01T00:00:00" initState ⟨"What tools?", none⟩).2
      ≠ ApiResult.ok ⟨"any", "t"⟩ :=
  query_before_init_rejected envEmptySearch "2026-01-01T00:00:00" initState
    ⟨"What tools?", none⟩ ⟨"any", "t"⟩ rfl rfl

/-- Claim C6: the fetch client swallows every failure mode. A failed search call
returns the empty list, as does a successful one whose body lacks the results
key; a failed guide-detail call returns the empty record. Both operations are
total functions of the response, so no exception reaches the caller. -/
theorem fetch_client_swallows_failures (r : FetchResult (Option (List SearchResult)))
    (g : FetchResult (Option Guide)) :
    (r = FetchResult.failure → search_devices r = []) ∧
    search_devices (FetchResult.success none) = [] ∧
    (g = FetchResult.failure → get_guide_details g = none) := by
  refine ⟨fun hr => ?_, rfl, fun hg => ?_⟩
  · subst hr; rfl
  · subst hg; rfl

/-- Claim C6 witness: both operations evaluated at a failed call. -/
theorem fetch_client_swallows_failures_witness :
    search_devices (FetchResult.failure : FetchResult (Option (List SearchResult))) = [] ∧
    get_guide_details (FetchResult.failure : FetchResult (Option Guide)) = none :=
  ⟨(fetch_client_swallows_failures FetchResult.failure FetchResult.failure).1 rfl,
   (fetch_client_swallows_failures FetchResult.failure FetchResult.failure).2.2 rfl⟩

/-- Claim C7: POST /reset always succeeds with status success, moves any state to
the uninitialized state (chatbot None, flag false), and is idempotent: a second
reset produces exactly the same state and body as the first. -/
theorem reset_idempotent (s : ServerState) :
    reset_chatbot s = (⟨none, false⟩, ⟨"success"⟩) ∧
    reset_chatbot (reset_chatbot s).1 = reset_chatbot s :=
  ⟨rfl, rfl⟩

/-- Claim C5: the formatter is a total function of the guide record (no error
path). Missing title, device and difficulty are substituted with N/A (the getD
defaults below), and when the tools and steps keys are absent the whole output
is just the header plus the optional introduction block: those sections are
omitted entirely. -/
theorem formatter_omits_absent_sections (g : Guide)
    (ht : g.tools = none) (hs : g.steps = none) :
    format_guide_to_document g =
      match g.introduction with
      | some intro =>
        "Title: " ++ g.title.getD "N/A" ++ "\nDevice: " ++ g.device.getD "N/A" ++
          "\nDifficulty: " ++ g.difficulty.getD "N/A" ++ "\n\nIntroduction:\n" ++
          intro ++ "\n\n"
      | none =>
        "Title: " ++ g.title.getD "N/A" ++ "\nDevice: " ++ g.device.getD "N/A" ++
          "\nDifficulty: " ++ g.difficulty.getD "N/A" ++ "\n\n" := by
  cases hi : g.introduction <;>
    simp [format_guide_to_document, ht, hs, hi, String.append_assoc]

/-- Claim C5 witness: a guide with every field absent except the introduction
formats to the header with N/A placeholders and no tools or steps section. -/
theorem formatter_omits_absent_sections_witness :
    format_guide_to_document ⟨none, none, none, some "Be careful.", none, none⟩ =
      "Title: N/A\nDevice: N/A\nDifficulty: N/A\n\nIntroduction:\nBe careful.\n\n" := by
  rw [formatter_omits_absent_sections ⟨none, none, none, some "Be careful.", none, none⟩
    rfl rfl]
  rfl

/-- Claim C1 counterexample: the state reached by one initialize call whose
search returned an empty list is reachable, its chatbot has no index and no
query engine (no initialize ever produced a non-empty index), and yet a
POST /query in that state is answered with a 200 whose answer is the warning
string, not rejected with an error as the claim requires. -/
theorem query_answered_despite_no_index :
    reachable ⟨some (newChatbot "llama2"), true⟩ ∧
    (newChatbot "llama2").index = none ∧
    (newChatbot "llama2").query_engine = none ∧
    (query_chatbot envEmptySearch "2026-02-03T04:05:06"
        ⟨some (newChatbot "llama2"), true⟩ ⟨"How do I fix it?", none⟩).2 =
      ApiResult.ok ⟨"⚠️  Build knowledge base first", "2026-02-03T04:05:06"⟩ := by
  exact ⟨⟨[ApiCall.initCall envEmptySearch ⟨"iPhone 13", 5, "llama2"⟩], rfl⟩, rfl, rfl, rfl⟩

/-- Claim C1 amended: in any state in which no initialize call has produced an
index (no chatbot, or a chatbot whose query engine is None), a POST /query is
either rejected with the 400 error Not initialized — when the service is
uninitialized — or answered with a 200 whose answer field is exactly the fixed
warning string; it is never answered with content generated from an index. -/
theorem query_without_index_never_generated (env : NetEnv) (now : String)
    (s : ServerState) (req : QueryRequest) (h : noBuiltEngine s) :
    (query_chatbot env now s req).2 = ApiResult.httpError 400 "Not initialized" ∨
    (query_chatbot env now s req).2 =
      ApiResult.ok ⟨"⚠️  Build knowledge base first", now⟩ := by
  cases hcb : s.chatbot with
  | none => left; simp [query_chatbot, hcb]
  | some cb =>
    have he : cb.query_engine = none := by
      have h2 := h
      unfold noBuiltEngine at h2
      rw [hcb] at h2
      exact h2
    cases hflag : s.chatbot_initialized with
    | false => left; simp [query_chatbot, hcb, hflag]
    | true => right; simp [query_chatbot, hcb, hflag, Chatbot.query, he]

/-- Claim C1 amended witness: in the reachable no-index state used above, the
query outcome is one of the two allowed ones (here, the warning answer). -/
theorem query_without_index_never_generated_witness :
    (query_chatbot envEmptySearch "t0" ⟨some (newChatbot "llama2"), true⟩
        ⟨"q", none⟩).2 = ApiResult.httpError 400 "Not initialized" ∨
    (query_chatbot envEmptySearch "t0" ⟨some (newChatbot "llama2"), true⟩
        ⟨"q", none⟩).2 = ApiResult.ok ⟨"⚠️  Build knowledge base first", "t0"⟩ :=
  query_without_index_never_generated envEmptySearch "t0"
    ⟨some (newChatbot "llama2"), true⟩ ⟨"q", none⟩ rfl

/-- Claim C3 counterexample: when the search returns an empty result list,
build_knowledge_base returns early and leaves the chatbot untouched — index and
query engine both stay None; no placeholder index is constructed, contrary to
the claim. -/
theorem empty_search_builds_no_index :
    build_knowledge_base envEmptySearch (newChatbot "llama2") "iPhone 13" 5 =
      Except.ok (newChatbot "llama2") ∧
    (newChatbot "llama2").index = none ∧
    (newChatbot "llama2").query_engine = none :=
  ⟨rfl, rfl, rfl⟩

/-- Claim C3 amended: when the search returns an empty list the builder returns
early and leaves the index absent; only when the search is non-empty but none of
the fetched guides yields a document does it build the index and engine over the
single placeholder document No guides found. (assuming index construction itself
does not raise). -/
theorem placeholder_only_when_search_nonempty (env : NetEnv) (cb : Chatbot)
    (dq : String) (mg : Nat) (hfail : env.indexFail = none) :
    (search_devices env.searchResp = [] →
      build_knowledge_base env cb dq mg = Except.ok cb) ∧
    (search_devices env.searchResp ≠ [] →
      docsFromResults env (search_devices env.searchResp) mg = [] →
      build_knowledge_base env cb dq mg = Except.ok
        { cb with index := some ⟨["No guides found."]⟩,
                  query_engine := some ⟨["No guides found."]⟩ }) := by
  constructor
  · intro h
    simp [build_knowledge_base, h]
  · intro h1 h2
    simp [build_knowledge_base, h1, h2, hfail]

/-- Claim C3 amended witness: one search result whose guide fetch fails leads to
the placeholder index; the empty-search early return is exercised at a second
concrete input. -/
theorem placeholder_only_when_search_nonempty_witness :
    build_knowledge_base envNoFetch (newChatbot "llama2") "iPhone 13" 3 =
      Except.ok ⟨"llama2", some ⟨["No guides found."]⟩, some ⟨["No guides found."]⟩⟩ ∧
    build_knowledge_base envEmptySearch (newChatbot "llama2") "iPhone 13" 3 =
      Except.ok (newChatbot "llama2") := by
  constructor
  · exact (placeholder_only_when_search_nonempty envNoFetch (newChatbot "llama2")
      "iPhone 13" 3 rfl).2 (by decide) rfl
  · exact (placeholder_only_when_search_nonempty envEmptySearch (newChatbot "llama2")
      "iPhone 13" 3 rfl).1 rfl

/-- Claim C4: an initialize whose device query yields zero search results
completes with a 200 success body, leaves the service Ready (flag true, chatbot
present), and a subsequent POST /query in that state does not crash: it returns
a 200 (whose answer is the warning string, since no index was built). -/
theorem init_empty_search_ready (env env2 : NetEnv) (s : ServerState)
    (req : InitializeRequest) (now : String) (qreq : QueryRequest)
    (h : search_devices env.searchResp = []) :
    initialize_chatbot env s req =
      (⟨some (newChatbot req.model_name), true⟩,
        ApiResult.ok ⟨"success", "Initialized for " ++ req.device_name, req.device_name⟩) ∧
    (query_chatbot env2 now ⟨some (newChatbot req.model_name), true⟩ qreq).2 =
      ApiResult.ok ⟨"⚠️  Build knowledge base first", now⟩ := by
  constructor
  · simp [initialize_chatbot, build_knowledge_base, h]
  · simp [query_chatbot, Chatbot.query, newChatbot]

/-- Claim C4 witness: a concrete initialize against an empty search, followed by
a concrete query in the resulting state. -/
theorem init_empty_search_ready_witness :
    initialize_chatbot envEmptySearch initState ⟨"iPhone 13", 5, "llama2"⟩ =
      (⟨some (newChatbot "llama2"), true⟩,
        ApiResult.ok ⟨"success", "Initialized for iPhone 13", "iPhone 13"⟩) ∧
    (query_chatbot envEmptySearch "t0" ⟨some (newChatbot "llama2"), true⟩ ⟨"q", none⟩).2 =
      ApiResult.ok ⟨"⚠️  Build knowledge base first", "t0"⟩ := by
  exact init_empty_search_ready envEmptySearch envEmptySearch initState
    ⟨"iPhone 13", 5, "llama2"⟩ "t0" ⟨"q", none⟩ rfl

/-- Claim C8: a query made while the chatbot exists and is flagged initialized
but its query engine is still None returns the literal warning string from
IFixitRAGChatbot.query, and the POST /query endpoint surfaces it as a 200 whose
answer field is that warning text, not a rejection. -/
theorem query_engine_none_warning (env : NetEnv) (now : String) (s : ServerState)
    (cb : Chatbot) (req : QueryRequest)
    (hcb : s.chatbot = some cb) (hflag : s.chatbot_initialized = true)
    (he : cb.query_engine = none) :
    Chatbot.query env cb req.question = "⚠️  Build knowledge base first" ∧
    (query_chatbot env now s req).2 =
      ApiResult.ok ⟨"⚠️  Build knowledge base first", now⟩ := by
  have h1 : Chatbot.query env cb req.question = "⚠️  Build knowledge base first" := by
    simp [Chatbot.query, he]
  exact ⟨h1, by simp [query_chatbot, hcb, hflag, h1]⟩

/-- Claim C8 witness: evaluated in the state left by an initialize whose search
was empty. -/
theorem query_engine_none_warning_witness :
    Chatbot.query envEmptySearch (newChatbot "llama2") "q" =
      "⚠️  Build knowledge base first" ∧
    (query_chatbot envEmptySearch "t0" ⟨some (newChatbot "llama2"), true⟩ ⟨"q", none⟩).2 =
      ApiResult.ok ⟨"⚠️  Build knowledge base first", "t0"⟩ :=
  query_engine_none_warning envEmptySearch "t0" ⟨some (newChatbot "llama2"), true⟩
    (newChatbot "llama2") ⟨"q", none⟩ rfl rfl rfl

/-- Claim C9: initialize is not atomic on failure. When the build raises (index
construction fails after a non-empty search), the endpoint returns a 500 whose
detail is the exception message, the chatbot global already holds the freshly
constructed instance — whose index and query engine are None — and the
initialized flag keeps its pre-call value: a failed re-initialize of a Ready
service leaves the flag true with an index-less chatbot. -/
theorem init_failure_nonatomic (env : NetEnv) (s : ServerState)
    (req : InitializeRequest) (e : String)
    (hf : env.indexFail = some e) (hne : search_devices env.searchResp ≠ [])
    (hready : s.chatbot_initialized = true) :
    initialize_chatbot env s req =
      (⟨some (newChatbot req.model_name), true⟩, ApiResult.httpError 500 e) ∧
    (newChatbot req.model_name).index = none ∧
    (newChatbot req.model_name).query_engine = none := by
  refine ⟨?_, rfl, rfl⟩
  simp [initialize_chatbot, build_knowledge_base, hf, hne, hready]

/-- Claim C9 witness: a Ready service with a fully built old chatbot, hit by an
initialize whose index construction raises with message boom. -/
theorem init_failure_nonatomic_witness :
    initialize_chatbot envBuildRaises
        ⟨some ⟨"old-model", some ⟨["d"]⟩, some ⟨["d"]⟩⟩, true⟩
        ⟨"iPhone 13", 5, "llama2"⟩ =
      (⟨some (newChatbot "llama2"), true⟩, ApiResult.httpError 500 "boom") := by
  exact (init_failure_nonatomic envBuildRaises
    ⟨some ⟨"old-model", some ⟨["d"]⟩, some ⟨["d"]⟩⟩, true⟩
    ⟨"iPhone 13", 5, "llama2"⟩ "boom" rfl (by decide) rfl).1

/-- Claim C10: GET /health reports the model field as the constant llama2
whenever a chatbot object exists — in particular right after any initialize,
whatever model_name the request carried — and none at process start; it reports
the flag as stored, and mutates nothing (its state transition is the identity). -/
theorem health_reports_constant_model (env : NetEnv) (s : ServerState)
    (req : InitializeRequest) :
    (health_check (initialize_chatbot env s req).1).model = "llama2" ∧
    (health_check initState).model = "none" ∧
    health_check s =
      ⟨"healthy", s.chatbot_initialized,
        if s.chatbot.isSome then "llama2" else "none"⟩ ∧
    stepState s ApiCall.healthCall = s := by
  refine ⟨?_, rfl, rfl, rfl⟩
  cases hb : build_knowledge_base env (newChatbot req.model_name) req.device_name
      req.max_guides with
  | ok cb => simp [initialize_chatbot, hb, health_check]
  | error e => simp [initialize_chatbot, hb, health_check]

end RagIRepair
